import Mathlib

/-!
Shallow embedding of the `getport` port-reservation library (src/src/lib.rs,
src/tests/tests.rs).

Modelling choices:
* A `u16` port number is a `Nat` (no arithmetic in the source can overflow a
  `u16`: the only arithmetic is `49152 + r % 16384 ≤ 65535`).
* The host OS socket-binding facility (`UdpSocket::bind` / `TcpListener::bind`
  on `127.0.0.1:<port>`) is an explicit environment parameter
  `bind : Nat → BindResult S`: for a requested port it either succeeds,
  handing over a live resource of type `S` together with the port the OS
  actually assigned, or fails with `AddrInUse`, or fails with another OS
  error carried as its display message.  During one acquisition run the OS
  environment is treated as a fixed map from ports to outcomes.
* Rust panics are embedded as an explicit `panic` result constructor carrying
  the panic message.
* A `ProvidePort` implementor (a `&mut` trait object) is embedded as a state
  type `Q` with a step function `provide : Q → Nat × Q`; the engine returns
  the final provider state so that the number of candidates pulled is
  observable, exactly as a Rust caller can observe the mutated provider.
-/

namespace Getport

/-- Outcome of the OS bind call on `127.0.0.1:<port>` for one transport kind:
success hands over the live socket resource and the port the OS actually
assigned; `addrInUse` is the `ErrorKind::AddrInUse` failure; `err` is any
other OS failure, carried as its display message. -/
inductive BindResult (S : Type) where
  | ok (sock : S) (assigned : Nat)
  | addrInUse
  | err (msg : String)
deriving DecidableEq

/-- `Port<T>` (src/src/lib.rs lines 7-10): the reservation handle, wrapping
the port number and exclusive ownership of the sitter resource. -/
structure Port (S : Type) where
  number : Nat
  _sitter : S
deriving DecidableEq

/-- `Port::take` (lib.rs lines 14-16): take the port number, releasing the
sitter (the handle is consumed). -/
def Port.take {S : Type} (p : Port S) : Nat :=
  p.number

/-- `Port::peek` (lib.rs lines 19-21): return the port number without
releasing the sitter. -/
def Port.peek {S : Type} (p : Port S) : Nat :=
  p.number

/-- `<Port<T> as AsRef<u16>>::as_ref` (lib.rs lines 24-28): the read-only
numeric view of the reservation. -/
def Port.as_ref {S : Type} (p : Port S) : Nat :=
  p.number

/-- Result of `Sit::sit`: `Option<Port<_>>` in the source, plus the panic
effect of the `Err(x) => panic!("{}", x)` arm. -/
inductive SitResult (S : Type) where
  | some (p : Port S)
  | none
  | panic (msg : String)
deriving DecidableEq

/-- `Sit::sit` (lib.rs lines 35-61).  `impl Sit for UdpSocket` and
`impl Sit for TcpListener` have identical bodies, differing only in which OS
bind facility they call, so both are this one function applied to the
respective `bind` environment.  On `Ok(sitter)` the source builds
`Port { number: port, _sitter: sitter }` — it stores the REQUESTED port and
ignores the port the OS actually assigned; on `AddrInUse` it returns `None`;
on any other error it panics with the error's display message. -/
def sit {S : Type} (bind : Nat → BindResult S) (port : Nat) : SitResult S :=
  match bind port with
  | BindResult.ok sock _ => SitResult.some ⟨port, sock⟩
  | BindResult.addrInUse => SitResult.none
  | BindResult.err m => SitResult.panic m

/-- Result of `reserve_port` (lib.rs lines 85-102): either a reservation or
one of the two panics that can escape the loop. -/
inductive ReserveResult (S : Type) where
  | ok (p : Port S)
  | panic (msg : String)
deriving DecidableEq

/-- The message of the `panic!` at lib.rs line 93. -/
def exhaustedMsg : String :=
  "Failed to find usable port after 5 attempts."

/-- The loop body of `reserve_port` (lib.rs lines 90-101).  The source counts
`attempts` up from 0 and panics once `attempts >= 5`; here the fuel argument
is the remaining budget `5 - attempts`, so fuel `0` is the `attempts >= 5`
panic and each iteration pulls one candidate from the provider, tries to sit
on it, and recurses with one unit less fuel (`attempts += 1`). -/
def reserve_port_go {S Q : Type} (bind : Nat → BindResult S)
    (provide : Q → Nat × Q) : Nat → Q → ReserveResult S × Q
  | 0, q => (ReserveResult.panic exhaustedMsg, q)
  | Nat.succ n, q =>
    let pq := provide q
    match sit bind pq.1 with
    | SitResult.some x => (ReserveResult.ok x, pq.2)
    | SitResult.none => reserve_port_go bind provide n pq.2
    | SitResult.panic m => (ReserveResult.panic m, pq.2)

/-- `reserve_port` (lib.rs lines 85-102): run the loop with the full budget
of 5 attempts, returning the result together with the final provider state
(the provider is passed by `&mut` in the source, so its final state is
observable by the caller). -/
def reserve_port {S Q : Type} (bind : Nat → BindResult S)
    (provide : Q → Nat × Q) (q : Q) : ReserveResult S × Q :=
  reserve_port_go bind provide 5 q

/-- `<Fastrand as ProvidePort>::provide_port` (lib.rs lines 114-118), i.e.
`fastrand::u16(49152..=65535)`: a draw from the inclusive range
49152–65535.  The PRNG is embedded as an abstract stream `r` of naturals;
the `i`-th draw is `49152 + r i % 16384`, which ranges exactly over
49152..=65535 as `r i` ranges over all naturals. -/
def fastrand_u16 (r : Nat → Nat) (i : Nat) : Nat :=
  49152 + r i % 16384

/-- The `Fastrand` provider as a `ProvidePort` state machine: its state is
the position in the PRNG stream. -/
def fastrandProvide (r : Nat → Nat) : Nat → Nat × Nat :=
  fun i => (fastrand_u16 r i, i + 1)

/-- `reserve_udp_port` (lib.rs lines 70-72):
`reserve_port::<UdpSocket, _>(&mut Fastrand)`, with the UDP bind facility
and the PRNG stream as explicit environment parameters. -/
def reserve_udp_port {S : Type} (bind : Nat → BindResult S)
    (r : Nat → Nat) : ReserveResult S × Nat :=
  reserve_port bind (fastrandProvide r) 0

/-- `reserve_tcp_port` (lib.rs lines 81-83):
`reserve_port::<TcpListener, _>(&mut Fastrand)`, with the TCP bind facility
and the PRNG stream as explicit environment parameters. -/
def reserve_tcp_port {S : Type} (bind : Nat → BindResult S)
    (r : Nat → Nat) : ReserveResult S × Nat :=
  reserve_port bind (fastrandProvide r) 0

/-- Result of the spec's generic acquisition `reserve`: a reservation, the
exhaustion error carrying the attempt count, or a propagated fatal bind
failure. -/
inductive SpecReserveResult (S : Type) where
  | ok (p : Port S)
  | exhausted (attempts : Nat)
  | fatal (msg : String)
deriving DecidableEq

/-- Modelled from the spec: the public, `Result`-returning
`reserve_port(candidate_source)` of the `getport` API is not present under
src/ — only its callers are (src/tests/tests.rs `test_from_randoms`,
`test_from_array` call `getport::reserve_port(<iterator>).unwrap()`, which
does not exist in src/src/lib.rs).  Following the spec (§4.2): the candidate
source is a sequence producer `f` with declared remaining length `len` (the
stream itself can produce elements beyond `len`); the engine iterates at
most `len` times, pulling candidate `f i` on iteration `i` and delegating to
the Socket Binder; first success returns the Reservation immediately; a
fatal bind failure propagates immediately and unconverted; after `len`
failed attempts it stops with the exhaustion error reporting exactly the
attempt count.  The second component of the result is the number of bind
attempts made. -/
def reserve_go {S : Type} (bind : Nat → BindResult S)
    (f : Nat → Nat) : Nat → Nat → SpecReserveResult S × Nat
  | 0, i => (SpecReserveResult.exhausted i, i)
  | Nat.succ n, i =>
    match sit bind (f i) with
    | SitResult.some x => (SpecReserveResult.ok x, i + 1)
    | SitResult.none => reserve_go bind f n (i + 1)
    | SitResult.panic m => (SpecReserveResult.fatal m, i + 1)

/-- Modelled from the spec: `reserve(candidate_source)` — run the engine
over the `len` candidates `f 0, …, f (len-1)`. -/
def reserve {S : Type} (bind : Nat → BindResult S) (f : Nat → Nat)
    (len : Nat) : SpecReserveResult S × Nat :=
  reserve_go bind f len 0

/-! Basic lemmas about the Socket Binder. -/

theorem sit_of_ok {S : Type} {bind : Nat → BindResult S} {p : Nat} {sock : S}
    {a : Nat} (h : bind p = BindResult.ok sock a) :
    sit bind p = SitResult.some ⟨p, sock⟩ := by
  simp [sit, h]

theorem sit_of_addrInUse {S : Type} {bind : Nat → BindResult S} {p : Nat}
    (h : bind p = BindResult.addrInUse) : sit bind p = SitResult.none := by
  simp [sit, h]

theorem sit_of_err {S : Type} {bind : Nat → BindResult S} {p : Nat}
    {m : String} (h : bind p = BindResult.err m) :
    sit bind p = SitResult.panic m := by
  simp [sit, h]

/-- C8: for every reservation, `take()` returns the same numeric value that
any preceding `peek()` returned, and the read-only numeric view `as_ref`
always equals the value returned by `peek()`. -/
theorem c8_take_asref_agree_with_peek :
    ∀ (S : Type) (p : Port S),
      Port.take p = Port.peek p ∧ Port.as_ref p = Port.peek p :=
  fun _ _ => ⟨rfl, rfl⟩

/-- C9: `peek()` reads the assigned port number without affecting the
reservation: it returns exactly the stored number, the handle afterwards
still holds the same number and the same live sitter resource (reassembling
the handle from the peeked number and its sitter yields the very same
reservation), and repeated calls to `peek()` return the same number. -/
theorem c9_peek_is_readonly :
    ∀ (S : Type) (p : Port S),
      Port.peek p = p.number ∧ Port.mk (Port.peek p) p._sitter = p ∧
      Port.peek p = Port.peek p :=
  fun _ _ => ⟨rfl, rfl, rfl⟩

/-- C4 counterexample: with an OS environment answering a wildcard request
(port 0) by assigning the free ephemeral port 50000, the Socket Binder
returns a reservation whose number is 0 — the requested port — and not the
OS-assigned 50000, contradicting the claim that for wildcard requests the
returned number is the OS-chosen ephemeral port (not 0). -/
theorem c4_counterexample :
    sit (fun _ => BindResult.ok () 50000) 0 = SitResult.some (Port.mk 0 ()) ∧
    Port.peek (Port.mk 0 ()) = 0 ∧ (0 : Nat) ≠ 50000 :=
  ⟨rfl, rfl, by decide⟩

/-- C4 amended: on every successful bind the Socket Binder returns the live
resource together with the REQUESTED port number — which equals the port the
OS actually assigned whenever the request is nonzero, since the OS can only
satisfy a nonzero request literally — but when the requested port is the
wildcard 0 it reports 0, not the OS-chosen ephemeral port. -/
theorem c4_sit_returns_requested_port :
    ∀ (S : Type) (bind : Nat → BindResult S) (port : Nat) (sock : S) (a : Nat),
      bind port = BindResult.ok sock a →
      sit bind port = SitResult.some (Port.mk port sock) ∧
      Port.peek (Port.mk port sock) = port :=
  fun _ _ _ _ _ h => ⟨sit_of_ok h, rfl⟩

/-- C4 witness: requested port 8080, OS assigns 8080, binder reports 8080. -/
theorem c4_witness :
    sit (fun _ => BindResult.ok () 8080) 8080 =
      SitResult.some (Port.mk 8080 ()) ∧
    Port.peek (Port.mk 8080 ()) = 8080 :=
  c4_sit_returns_requested_port Unit (fun _ => BindResult.ok () 8080) 8080 () 8080 rfl

/-- C5: a fatal bind failure (any OS error other than address-in-use) makes
the acquisition loop stop at once: however much attempt budget remains, the
result is the propagated failure itself, unconverted, with the provider
pulled exactly once at that step and never again (the failure is not treated
as a retryable attempt), and — whenever the OS error message differs from the
exhaustion message — the outcome is not the exhaustion failure. -/
theorem c5_fatal_short_circuits :
    ∀ (S Q : Type) (bind : Nat → BindResult S) (provide : Q → Nat × Q)
      (q : Q) (n : Nat) (m : String),
      bind (provide q).1 = BindResult.err m →
      reserve_port_go bind provide (n + 1) q =
        (ReserveResult.panic m, (provide q).2) ∧
      (m ≠ exhaustedMsg →
        (reserve_port_go bind provide (n + 1) q).1 ≠
          ReserveResult.panic exhaustedMsg) := by
  intro S Q bind provide q n m h
  have h1 : reserve_port_go bind provide (n + 1) q =
      (ReserveResult.panic m, (provide q).2) := by
    simp [reserve_port_go, sit_of_err h]
  refine ⟨h1, ?_⟩
  intro hm
  rw [h1]
  simpa using hm

/-- C5 witness: OS answers every bind with a permission-style error whose
message is "boom"; with the full budget of 5 the loop stops after one pull
and propagates "boom". -/
theorem c5_witness :
    reserve_port_go (fun _ => (BindResult.err "boom" : BindResult Unit))
        (fun q : Nat => (q, q + 1)) 5 0 = (ReserveResult.panic "boom", 1) :=
  (c5_fatal_short_circuits Unit Nat (fun _ => BindResult.err "boom")
    (fun q : Nat => (q, q + 1)) 0 4 "boom" rfl).1

/-- C6: an address-in-use bind failure makes the Socket Binder return the
explicit negative result `none` (not an error, not a panic), and the
acquisition engine treats it as recoverable: it discards that candidate,
consumes one unit of attempt budget (the source increments its `attempts`
counter; here the remaining budget decreases by one), and continues with the
provider advanced to the next candidate. -/
theorem c6_addr_in_use_is_recoverable :
    ∀ (S Q : Type) (bind : Nat → BindResult S) (provide : Q → Nat × Q)
      (q : Q) (n : Nat),
      bind (provide q).1 = BindResult.addrInUse →
      sit bind (provide q).1 = SitResult.none ∧
      reserve_port_go bind provide (n + 1) q =
        reserve_port_go bind provide n (provide q).2 := by
  intro S Q bind provide q n h
  refine ⟨sit_of_addrInUse h, ?_⟩
  simp [reserve_port_go, sit_of_addrInUse h]

/-- C6 witness: the candidate 0 is busy; with budget 3 the engine moves on to
the provider state 1 with budget 2. -/
theorem c6_witness :
    sit (fun _ => (BindResult.addrInUse : BindResult Unit)) 0 =
      SitResult.none ∧
    reserve_port_go (fun _ => (BindResult.addrInUse : BindResult Unit))
        (fun q : Nat => (q, q + 1)) 3 0 =
      reserve_port_go (fun _ => (BindResult.addrInUse : BindResult Unit))
        (fun q : Nat => (q, q + 1)) 2 1 :=
  c6_addr_in_use_is_recoverable Unit Nat (fun _ => BindResult.addrInUse)
    (fun q : Nat => (q, q + 1)) 0 2 rfl

/-! Behaviour of the bounded loop over a stream-shaped provider. -/

theorem reserve_port_go_stream_success {S : Type} (bind : Nat → BindResult S)
    (f : Nat → Nat) (sock : S) (a : Nat) :
    ∀ (k n start : Nat), k < n →
      (∀ j, start ≤ j → j < start + k → bind (f j) = BindResult.addrInUse) →
      bind (f (start + k)) = BindResult.ok sock a →
      reserve_port_go bind (fun j => (f j, j + 1)) n start =
        (ReserveResult.ok (Port.mk (f (start + k)) sock), start + k + 1) := by
  intro k
  induction k with
  | zero =>
    intro n start hk hb hs
    cases n with
    | zero => omega
    | succ n' =>
      simp only [Nat.add_zero] at hs ⊢
      simp [reserve_port_go, sit_of_ok hs]
  | succ k ih =>
    intro n start hk hb hs
    cases n with
    | zero => omega
    | succ n' =>
      have hb0 : bind (f start) = BindResult.addrInUse :=
        hb start (Nat.le_refl _) (by omega)
      have step : reserve_port_go bind (fun j => (f j, j + 1)) (n' + 1) start =
          reserve_port_go bind (fun j => (f j, j + 1)) n' (start + 1) := by
        simp [reserve_port_go, sit_of_addrInUse hb0]
      have hs' : bind (f (start + 1 + k)) = BindResult.ok sock a := by
        have e : start + 1 + k = start + (k + 1) := by omega
        rw [e]; exact hs
      have tail := ih n' (start + 1) (by omega)
        (fun j h1 h2 => hb j (by omega) (by omega)) hs'
      rw [step, tail]
      have e : start + 1 + k = start + (k + 1) := by omega
      rw [e]

/-- C7: first success wins.  With candidates `f 0, f 1, …` where the first
`i` are busy and candidate `i` binds successfully (necessarily within the
5-attempt budget, the only way a bind can happen in this variant), the
engine stops immediately and returns exactly that reservation; the final
provider state `i + 1` shows that exactly `i + 1` candidates were pulled and
`i + 1` bind attempts made — none after the success. -/
theorem c7_first_success_wins :
    ∀ (S : Type) (bind : Nat → BindResult S) (f : Nat → Nat) (i : Nat)
      (sock : S) (a : Nat),
      i < 5 →
      (∀ j, j < i → bind (f j) = BindResult.addrInUse) →
      bind (f i) = BindResult.ok sock a →
      reserve_port bind (fun j => (f j, j + 1)) 0 =
        (ReserveResult.ok (Port.mk (f i) sock), i + 1) := by
  intro S bind f i sock a hi hb hs
  have h := reserve_port_go_stream_success bind f sock a i 5 0 hi
    (fun j h1 h2 => hb j (by omega)) (by simpa using hs)
  simpa [reserve_port] using h

/-- C7 witness: candidate 0 is busy, candidate 1 binds; the engine returns
the reservation of port 1 after exactly 2 pulls and 2 bind attempts. -/
theorem c7_witness :
    reserve_port
        (fun p => if p = 0 then (BindResult.addrInUse : BindResult Unit)
          else BindResult.ok () p)
        (fun j => (j, j + 1)) 0 =
      (ReserveResult.ok (Port.mk 1 ()), 2) :=
  c7_first_success_wins Unit
    (fun p => if p = 0 then BindResult.addrInUse else BindResult.ok () p)
    (fun j => j) 1 () 1 (by decide)
    (fun j hj => by
      have hj0 : j = 0 := Nat.lt_one_iff.mp hj
      simp [hj0])
    (by simp)

theorem reserve_port_go_fastrand_all_busy {S : Type}
    (bind : Nat → BindResult S) (r : Nat → Nat)
    (hb : ∀ p, bind p = BindResult.addrInUse) :
    ∀ (n i : Nat), reserve_port_go bind (fastrandProvide r) n i =
      (ReserveResult.panic exhaustedMsg, i + n) := by
  intro n
  induction n with
  | zero => intro i; simp [reserve_port_go]
  | succ n ih =>
    intro i
    have step : reserve_port_go bind (fastrandProvide r) (n + 1) i =
        reserve_port_go bind (fastrandProvide r) n (i + 1) := by
      simp [reserve_port_go, fastrandProvide, sit_of_addrInUse (hb _)]
    rw [step, ih (i + 1)]
    have e : i + 1 + n = i + (n + 1) := by omega
    rw [e]

/-- C3 counterexample: with every private-range port busy and the zero PRNG
stream, `reserve_udp_port`/`reserve_tcp_port` request candidate 49152 (not
the wildcard 0), pull 5 candidates (not a length-1 source), and do exhaust,
panicking after 5 attempts — refuting that they request port 0, use a
length-1 candidate source, and cannot exhaust. -/
theorem c3_counterexample :
    reserve_udp_port (fun _ => (BindResult.addrInUse : BindResult Unit))
        (fun _ => 0) = (ReserveResult.panic exhaustedMsg, 5) ∧
    reserve_tcp_port (fun _ => (BindResult.addrInUse : BindResult Unit))
        (fun _ => 0) = (ReserveResult.panic exhaustedMsg, 5) ∧
    fastrand_u16 (fun _ => 0) 0 = 49152 ∧ (49152 : Nat) ≠ 0 ∧ (5 : Nat) ≠ 1 :=
  ⟨rfl, rfl, rfl, by decide, by decide⟩

/-- C3 amended: the convenience entry points never request port 0 — every
candidate they request is a Fastrand draw from the private range
49152–65535; their candidate source is the unbounded random stream with a
fixed budget of 5 attempts rather than a length-1 wildcard source, and when
every candidate is already bound they do exhaust, panicking after exactly 5
attempts. -/
theorem c3_entry_points_draw_random_private_ports :
    ∀ (S : Type) (bind : Nat → BindResult S) (r : Nat → Nat),
      (∀ i, 49152 ≤ fastrand_u16 r i ∧ fastrand_u16 r i ≤ 65535 ∧
        fastrand_u16 r i ≠ 0) ∧
      ((∀ p, bind p = BindResult.addrInUse) →
        reserve_udp_port bind r = (ReserveResult.panic exhaustedMsg, 5) ∧
        reserve_tcp_port bind r = (ReserveResult.panic exhaustedMsg, 5)) := by
  intro S bind r
  constructor
  · intro i
    have hm : r i % 16384 < 16384 := Nat.mod_lt _ (by decide)
    unfold fastrand_u16
    omega
  · intro hb
    constructor
    · show reserve_port_go bind (fastrandProvide r) 5 0 = _
      rw [reserve_port_go_fastrand_all_busy bind r hb 5 0]
    · show reserve_port_go bind (fastrandProvide r) 5 0 = _
      rw [reserve_port_go_fastrand_all_busy bind r hb 5 0]

/-- C3 amended witness: with the constant PRNG stream 7 and every port busy,
UDP acquisition requests ports in range and exhausts after 5 attempts. -/
theorem c3_witness :
    49152 ≤ fastrand_u16 (fun _ => 7) 0 ∧
    reserve_udp_port (fun _ => (BindResult.addrInUse : BindResult Unit))
        (fun _ => 7) = (ReserveResult.panic exhaustedMsg, 5) :=
  ⟨((c3_entry_points_draw_random_private_ports Unit
      (fun _ => BindResult.addrInUse) (fun _ => 7)).1 0).1,
   ((c3_entry_points_draw_random_private_ports Unit
      (fun _ => BindResult.addrInUse) (fun _ => 7)).2 (fun _ => rfl)).1⟩

theorem reserve_port_go_fastrand_range {S : Type} (bind : Nat → BindResult S)
    (r : Nat → Nat) :
    ∀ (n i : Nat) (p : Port S) (j : Nat),
      reserve_port_go bind (fastrandProvide r) n i = (ReserveResult.ok p, j) →
      49152 ≤ p.number ∧ p.number ≤ 65535 := by
  intro n
  induction n with
  | zero =>
    intro i p j h
    simp [reserve_port_go] at h
  | succ n ih =>
    intro i p j h
    cases hb : bind (fastrand_u16 r i) with
    | ok sock a =>
      simp [reserve_port_go, fastrandProvide, sit_of_ok hb] at h
      obtain ⟨hp, -⟩ := h
      rw [← hp]
      have hm : r i % 16384 < 16384 := Nat.mod_lt _ (by decide)
      show 49152 ≤ fastrand_u16 r i ∧ fastrand_u16 r i ≤ 65535
      unfold fastrand_u16
      omega
    | addrInUse =>
      have step : reserve_port_go bind (fastrandProvide r) (n + 1) i =
          reserve_port_go bind (fastrandProvide r) n (i + 1) := by
        simp [reserve_port_go, fastrandProvide, sit_of_addrInUse hb]
      rw [step] at h
      exact ih (i + 1) p j h
    | err m =>
      simp [reserve_port_go, fastrandProvide, sit_of_err hb] at h

/-- C10: every port number returned — via `peek`, `take`, or the numeric
view — by a reservation produced by `reserve_udp_port` or `reserve_tcp_port`
lies in the private range 49152–65535 inclusive; in particular it is never
0.  This holds for every PRNG stream and every OS environment. -/
theorem c10_entry_points_private_range :
    ∀ (S : Type) (bind : Nat → BindResult S) (r : Nat → Nat) (p : Port S)
      (j : Nat),
      (reserve_udp_port bind r = (ReserveResult.ok p, j) ∨
        reserve_tcp_port bind r = (ReserveResult.ok p, j)) →
      (49152 ≤ Port.peek p ∧ Port.peek p ≤ 65535) ∧
      Port.take p = Port.peek p ∧ Port.as_ref p = Port.peek p ∧
      Port.peek p ≠ 0 := by
  intro S bind r p j h
  have hr : 49152 ≤ p.number ∧ p.number ≤ 65535 := by
    cases h with
    | inl h => exact reserve_port_go_fastrand_range bind r 5 0 p j h
    | inr h => exact reserve_port_go_fastrand_range bind r 5 0 p j h
  obtain ⟨hr1, hr2⟩ := hr
  refine ⟨⟨hr1, hr2⟩, rfl, rfl, ?_⟩
  show p.number ≠ 0
  omega

/-- C10 witness: with the zero PRNG stream and a free OS, `reserve_udp_port`
reserves port 49152, which is in range and nonzero. -/
theorem c10_witness :
    reserve_udp_port (fun _ => (BindResult.ok () 0 : BindResult Unit))
        (fun _ => 0) = (ReserveResult.ok (Port.mk 49152 ()), 1) ∧
    (49152 ≤ Port.peek (Port.mk 49152 ()) ∧
      Port.peek (Port.mk 49152 ()) ≤ 65535) ∧
    Port.take (Port.mk 49152 ()) = Port.peek (Port.mk 49152 ()) ∧
    Port.as_ref (Port.mk 49152 ()) = Port.peek (Port.mk 49152 ()) ∧
    Port.peek (Port.mk 49152 ()) ≠ 0 :=
  ⟨rfl, c10_entry_points_private_range Unit (fun _ => BindResult.ok () 0)
    (fun _ => 0) (Port.mk 49152 ()) 1 (Or.inl rfl)⟩

/-! Behaviour of the spec-modelled, length-bounded engine. -/

theorem reserve_go_all_busy {S : Type} (bind : Nat → BindResult S)
    (f : Nat → Nat) :
    ∀ (n i : Nat),
      (∀ j, i ≤ j → j < i + n → bind (f j) = BindResult.addrInUse) →
      reserve_go bind f n i = (SpecReserveResult.exhausted (i + n), i + n) := by
  intro n
  induction n with
  | zero => intro i h; simp [reserve_go]
  | succ n ih =>
    intro i h
    have h0 : bind (f i) = BindResult.addrInUse := h i (Nat.le_refl _) (by omega)
    have step : reserve_go bind f (n + 1) i = reserve_go bind f n (i + 1) := by
      simp [reserve_go, sit_of_addrInUse h0]
    rw [step, ih (i + 1) (fun j h1 h2 => h j (by omega) (by omega))]
    have e : i + 1 + n = i + (n + 1) := by omega
    rw [e]

/-- C1: for every candidate source in which every candidate is already in
use, the spec-modelled `reserve_port` returns the exhaustion error carrying
the attempt count — an `Err`, not a success, a panic, or a fatal failure,
and the computation terminates with that value; and for some candidate
source containing a free port it returns `Ok` with a reservation. -/
theorem c1_exhausts_to_err_and_can_succeed :
    (∀ (S : Type) (bind : Nat → BindResult S) (f : Nat → Nat) (len : Nat),
      (∀ i, i < len → bind (f i) = BindResult.addrInUse) →
      (reserve bind f len).1 = SpecReserveResult.exhausted len) ∧
    (∃ (bind : Nat → BindResult Unit) (f : Nat → Nat) (len : Nat)
      (p : Port Unit) (j : Nat),
      reserve bind f len = (SpecReserveResult.ok p, j)) := by
  constructor
  · intro S bind f len h
    have e := reserve_go_all_busy bind f len 0 (fun j h1 h2 => h j (by omega))
    show (reserve_go bind f len 0).1 = SpecReserveResult.exhausted len
    rw [e]
    simp
  · exact ⟨fun _ => BindResult.ok () 0, fun _ => 8000, 1, Port.mk 8000 (), 1,
      rfl⟩

/-- C1 witness: with a 3-candidate source that is entirely busy, the engine
returns the exhaustion error carrying attempt count 3. -/
theorem c1_witness :
    (reserve (fun _ => (BindResult.addrInUse : BindResult Unit))
        (fun _ => 0) 3).1 = SpecReserveResult.exhausted 3 :=
  c1_exhausts_to_err_and_can_succeed.1 Unit (fun _ => BindResult.addrInUse)
    (fun _ => 0) 3 (fun _ _ => rfl)

/-- C2: for every candidate source of declared remaining length `len` whose
candidates are all busy, the spec-modelled `reserve_port` makes exactly
`len` bind attempts — never more, although the stream could produce
unboundedly many further elements — and the exhaustion failure carries
exactly `len` as the attempt count. -/
theorem c2_exactly_len_attempts :
    ∀ (S : Type) (bind : Nat → BindResult S) (f : Nat → Nat) (len : Nat),
      (∀ i, i < len → bind (f i) = BindResult.addrInUse) →
      reserve bind f len = (SpecReserveResult.exhausted len, len) := by
  intro S bind f len h
  have e := reserve_go_all_busy bind f len 0 (fun j h1 h2 => h j (by omega))
  show reserve_go bind f len 0 = (SpecReserveResult.exhausted len, len)
  rw [e]
  simp

/-- C2 witness: a busy 4-candidate source yields exactly 4 attempts and the
error `Exhausted 4`, although the stream is infinite. -/
theorem c2_witness :
    reserve (fun _ => (BindResult.addrInUse : BindResult Unit))
        (fun i => 8000 + i) 4 = (SpecReserveResult.exhausted 4, 4) :=
  c2_exactly_len_attempts Unit (fun _ => BindResult.addrInUse)
    (fun i => 8000 + i) 4 (fun _ _ => rfl)

end Getport
